import Mathlib

/-!
Verification development for three build-time utility scripts:
 * `native_client_sdk/src/doc/doxygen/rst_index.py` (doc index generator),
 * `remoting/tools/build/remoting_ios_localize.py` (localized strings tool),
 * `chrome/browser/search/tools/generate_integrity_header.py` (hash header).

Each Python function is shallowly embedded as an executable Lean definition.
Python byte/unicode strings are modelled as Lean `String` / `List Char`
(all data handled by these scripts is ASCII); fallible Python code
(uncaught exceptions) is modelled with `Option` / `Except`.
-/

/-! ## rst_index.py : name demangler -/

/-- Last index of character `c` in `l`, or `-1` when absent
(Python `str.rfind` convention, used by `os.path.splitext`). -/
def lastIdxOf (c : Char) (l : List Char) : Int :=
  (l.foldl (fun acc d => (if d = c then acc.2 else acc.1, acc.2 + 1)) ((-1 : Int), (0 : Int))).1

/-- `os.path.splitext(filename)[0]` (posix rules, separator `/`):
split off the extension at the last dot, provided some character strictly
between the last `/` and that dot is not a dot; otherwise return unchanged. -/
def splitextRoot (s : String) : String :=
  let l := s.data
  let si := lastIdxOf '/' l
  let di := lastIdxOf '.' l
  if si < di then
    if ((l.drop (si + 1).toNat).take (di - si - 1).toNat).any (fun c => c ≠ '.') then
      String.mk (l.take di.toNat)
    else s
  else s

/-- The character-by-character demangling loop of `GetName`: state `cap` says
whether the next character should be capitalized.  An underscore seen with
`cap = false` switches `cap` on and is dropped; an underscore seen with
`cap = true` (i.e. the second of a pair, or at the very start since the loop
begins with `cap = True`) is emitted literally and switches `cap` off. -/
def demangleLoop : Bool → List Char → List Char
  | _, [] => []
  | cap, c :: rest =>
    if c = '_' then
      if cap then '_' :: demangleLoop false rest
      else demangleLoop true rest
    else
      (if cap then c.toUpper else c) :: demangleLoop false rest

/-- The `cap` state of the demangling loop after processing a list of
characters starting from state `cap`. -/
def capAfter : Bool → List Char → Bool
  | cap, [] => cap
  | cap, c :: rest =>
    if c = '_' then
      if cap then capAfter false rest
      else capAfter true rest
    else capAfter false rest

/-- Python `re.sub(r'_\d_\d$', '', out)`: strip a trailing
underscore-digit-underscore-digit version suffix, if present. -/
def stripVersionSuffix (s : String) : String :=
  let l := s.data
  let n := l.length
  if 4 ≤ n ∧ l.getD (n - 4) ' ' = '_' ∧ (l.getD (n - 3) ' ').isDigit
      ∧ l.getD (n - 2) ' ' = '_' ∧ (l.getD (n - 1) ' ').isDigit then
    String.mk (l.take (n - 4))
  else s

/-- Python `haystack.startswith(pre)` on the character list of the haystack. -/
def startsWithL (l : List Char) (pre : String) : Bool :=
  pre.data.isPrefixOf l

/-- Python `haystack.endswith(suf)` on the character list of the haystack. -/
def endsWithL (l : List Char) (suf : String) : Bool :=
  suf.data.isSuffixOf l

/-- Python `s.replace('__', '_')`: left-to-right, non-overlapping. -/
def replaceDunder : List Char → List Char
  | '_' :: '_' :: rest => '_' :: replaceDunder rest
  | c :: rest => c :: replaceDunder rest
  | [] => []

/-- Common tail of the prefix branches of `GetName`: display prefix `pre`
(`''`, `'Ext::'` or `'Internal::'`) followed by the demangled remainder,
then the trailing version suffix stripped from the concatenation. -/
def finishName (pre : String) (mangle : List Char) : String :=
  stripVersionSuffix (pre ++ String.mk (demangleLoop true mangle))

/-- `GetName` of rst_index.py.  The filename first has its extension removed;
then an ordered chain of fixed-prefix tests selects how many characters to
strip and which display prefix to use; `*_8h` names use the simpler
header-file rule.  In the final `else` branch the Python code prints
`'No match: ' + filename` and then reads the never-assigned local `mangle`,
raising `UnboundLocalError`; that crash is modelled as `none`. -/
def GetName (filename0 : String) : Option String :=
  let filename := splitextRoot filename0
  let l := filename.data
  if startsWithL l "struct_p_p_b__" then some (finishName "" (l.drop 7))
  else if startsWithL l "struct_p_p_p__" then some (finishName "" (l.drop 7))
  else if startsWithL l "struct_p_p__" then some (finishName "" (l.drop 7))
  else if startsWithL l "union_p_p__" then some (finishName "" (l.drop 6))
  else if startsWithL l "classpp_1_1_" then some (finishName "" (l.drop 12))
  else if startsWithL l "classpp_1_1ext_1_1_" then some (finishName "Ext::" (l.drop 19))
  else if startsWithL l "classpp_1_1internal_1_1_" then some (finishName "Internal::" (l.drop 24))
  else if startsWithL l "structpp_1_1internal_1_1_" then some (finishName "Internal::" (l.drop 25))
  else if endsWithL l "_8h" then
    some (String.mk (replaceDunder (l.take (l.length - 3))) ++ ".h")
  else none

/-! ## rst_index.py : fnmatch-style glob matching -/

/-- Scan for the closing `]` of a character class
(the scanning loop of `fnmatch.translate`); returns the class body and the
remainder of the pattern after the `]`, or `none` if there is no `]`. -/
def scanClose : List Char → Option (List Char × List Char)
  | [] => none
  | ']' :: rest => some ([], rest)
  | c :: rest =>
    match scanClose rest with
    | none => none
    | some (s, r) => some (c :: s, r)

/-- Extract a character-class body following `[` per `fnmatch.translate`:
a leading `!` and a `]` immediately after it (or immediately after the `[`)
are part of the body, not terminators. -/
def splitClass : List Char → Option (List Char × List Char)
  | '!' :: ']' :: rest =>
    match scanClose rest with
    | none => none
    | some (s, r) => some ('!' :: ']' :: s, r)
  | '!' :: rest =>
    match scanClose rest with
    | none => none
    | some (s, r) => some ('!' :: s, r)
  | ']' :: rest =>
    match scanClose rest with
    | none => none
    | some (s, r) => some (']' :: s, r)
  | l => scanClose l

/-- Match a character against the items of a class body:
`a-b` denotes a codepoint range, everything else is a literal. -/
def classItemsMatch : List Char → Char → Bool
  | [], _ => false
  | a :: '-' :: b :: rest, c =>
    (decide (a ≤ c) && decide (c ≤ b)) || classItemsMatch rest c
  | a :: rest, c => decide (a = c) || classItemsMatch rest c

/-- Match a character against a full class body; a leading `!` negates
(as `fnmatch.translate` turns it into `^`). -/
def inClass (stuff : List Char) (c : Char) : Bool :=
  match stuff with
  | '!' :: rest => !(classItemsMatch rest c)
  | _ => classItemsMatch stuff c

/-- Glob matching of `fnmatch.fnmatch` (case-sensitive, posix `normcase`):
`*` matches any sequence, `?` any single character, `[...]` a class
(a `[` with no closing `]` is a literal), other characters literally;
the whole name must be consumed.  `fuel` is a totality device: every
recursive call shrinks `p.length + s.length`, and the initial fuel in
`globMatch` exceeds that measure, so the `0` case is never reached. -/
def globMatchF : Nat → List Char → List Char → Bool
  | 0, _, _ => false
  | fuel + 1, p, s =>
    match p, s with
    | [], s2 => s2.isEmpty
    | '*' :: ps, s2 =>
      globMatchF fuel ps s2 ||
        (match s2 with
         | [] => false
         | _ :: cs => globMatchF fuel ('*' :: ps) cs)
    | '?' :: ps, s2 =>
      (match s2 with
       | [] => false
       | _ :: cs => globMatchF fuel ps cs)
    | '[' :: ps, s2 =>
      (match splitClass ps with
       | none =>
         match s2 with
         | '[' :: cs => globMatchF fuel ps cs
         | _ => false
       | some (stuff, rest) =>
         match s2 with
         | [] => false
         | c :: cs => inClass stuff c && globMatchF fuel rest cs)
    | a :: ps, s2 =>
      (match s2 with
       | [] => false
       | c :: cs => decide (a = c) && globMatchF fuel ps cs)

/-- Glob matching with sufficient fuel. -/
def globMatch (p s : List Char) : Bool :=
  globMatchF (p.length + s.length + 1) p s

/-- `fnmatch.fnmatch(name, pat)`. -/
def fnmatchFn (name pat : String) : Bool :=
  globMatch pat.data name.data

/-! ## rst_index.py : file classification and index rendering -/

/-- Boolean lexicographic comparison of character lists by codepoint: the
byte-wise `<=` of Python 2 strings (all data here is ASCII). -/
def strLeB : List Char → List Char → Bool
  | [], _ => true
  | _ :: _, [] => false
  | c :: cs, d :: ds =>
    if c = d then strLeB cs ds
    else decide (c < d)

/-- The lexicographic order on strings used by Python `list.sort()`. -/
def pyLe (a b : String) : Prop := strLeB a.data b.data = true

instance pyLeDecidable : DecidableRel pyLe :=
  fun a b => inferInstanceAs (Decidable (strLeB a.data b.data = true))

/-- Python `good_files.sort()`.  Python uses a stable sort under the total
lexicographic string order; since equal strings are identical, every
sorting algorithm that respects the order produces the same list, so
insertion sort is an exact model. -/
def sortStrings (l : List String) : List String :=
  List.insertionSort pyLe l

/-- The wildcard constants of rst_index.py. -/
def C_INTERFACE_WILDCARDS : List String := ["struct_p_p_p__*", "struct_p_p_b__*"]

def C_STRUCT_WILDCARDS : List String := ["struct_p_p__*", "union_p_p__*"]

def CPP_CLASSES_WILDCARDS : List String := ["classpp_1_1*.html"]

def CPP_CLASSES_EXCLUDES : List String := ["*-members*"]

def FILE_WILDCARDS : List String := ["*_8h.html"]

/-- The file-list construction of `MakeReSTListFromFiles`: for each inclusion
pattern, append all directory entries matching it (so an entry is added once
per pattern it matches); then, when an exclusion list is given (Python
`if excludes:`, with `None` as default), drop entries matching any exclusion
pattern; finally sort.  `dirFiles` stands for `os.listdir(path)`. -/
def MakeGoodFiles (dirFiles incl : List String) (excludes : Option (List String)) :
    List String :=
  let good := incl.flatMap (fun m => dirFiles.filter (fun f => fnmatchFn f m))
  let good2 :=
    match excludes with
    | none => good
    | some exs => exs.foldl (fun acc e => acc.filter (fun f => !(fnmatchFn f e))) good
  sortStrings good2

/-- One ReST bullet entry: `'  * `%s <%s/%s>`__\n' % (GetName(f), pfx, f)`. -/
def reSTEntry (pfx name f : String) : String :=
  "  * `" ++ name ++ " <" ++ pfx ++ "/" ++ f ++ ">`__\n"

/-- `MakeReSTListFromFiles` of rst_index.py: build the sorted file list,
compute the display name of each file and join the formatted entries with
newlines (`'\n'.join(...)`).  `none` models the `UnboundLocalError` escaping
from `GetName` on an unmatched filename. -/
def MakeReSTListFromFiles (pfx : String) (dirFiles incl : List String)
    (excludes : Option (List String)) : Option String :=
  ((MakeGoodFiles dirFiles incl excludes).mapM
      (fun f => (GetName f).map (fun n => reSTEntry pfx n f))).map
    (fun items => String.intercalate "\n" items)

/-- `MakeTitleCase`: `s[0].upper() + s[1:]`; on the empty string the Python
code raises `IndexError`, modelled as `none`. -/
def MakeTitleCase (s : String) : Option String :=
  match s.data with
  | [] => none
  | c :: rest => some (String.mk (c.toUpper :: rest))

/-- `MakeChannelAlt`: empty for the stable channel, `-<channel>` otherwise. -/
def MakeChannelAlt (channel : String) : String :=
  if channel = "stable" then "" else "-" ++ channel

/-- A line of `n` copies of character `c` (the `=`/`#` ruler lines of the
templates), followed by a newline. -/
def rulerLine (n : Nat) (c : Char) : String :=
  String.mk (List.replicate n c) ++ "\n"

/-- `ROOT_FILE_CONTENTS % vars()`: the root index template with
`channel`, `channel_title` and `version` substituted. -/
def ROOT_FILE_CONTENTS (channel channelTitle version : String) : String :=
  ".. _pepper_" ++ channel ++ "_index:\n\n" ++
  ":orphan:\n\n" ++
  ".. DO NOT EDIT! This document is auto-generated by doxygen/rst_index.py.\n\n" ++
  ".. include:: /migration/deprecation.inc\n\n" ++
  rulerLine 40 '#' ++
  "Pepper API Reference (" ++ channelTitle ++ ")\n" ++
  rulerLine 40 '#' ++ "\n" ++
  "This page lists the API for Pepper " ++ version ++ ". Apps that use this API can\n" ++
  "run in Chrome " ++ version ++ " or higher.\n\n" ++
  ":ref:`Pepper C API Reference <pepper_" ++ channel ++ "_c_index>`\n" ++
  rulerLine 59 '=' ++ "\n" ++
  ":ref:`Pepper C++ API Reference <pepper_" ++ channel ++ "_cpp_index>`\n" ++
  rulerLine 63 '=' ++ "\n"

/-- `C_FILE_CONTENTS % vars()`: the C index template with all placeholders
substituted. -/
def C_FILE_CONTENTS (channel channelAlt channelTitle version interfaces structures files :
    String) : String :=
  ".. _pepper_" ++ channel ++ "_c_index:\n" ++
  ".. _c-api" ++ channelAlt ++ ":\n\n" ++
  ".. DO NOT EDIT! This document is auto-generated by doxygen/rst_index.py.\n\n" ++
  ".. include:: /migration/deprecation.inc\n\n" ++
  rulerLine 42 '#' ++
  "Pepper C API Reference (" ++ channelTitle ++ ")\n" ++
  rulerLine 42 '#' ++ "\n" ++
  "This page lists the C API for Pepper " ++ version ++ ". Apps that use this API can\n" ++
  "run in Chrome " ++ version ++ " or higher.\n\n" ++
  "`Interfaces <pepper_" ++ channel ++ "/c/group___interfaces.html>`__\n" ++
  rulerLine 61 '=' ++
  interfaces ++ "\n\n" ++
  "`Structures <pepper_" ++ channel ++ "/c/group___structs.html>`__\n" ++
  rulerLine 58 '=' ++
  structures ++ "\n\n" ++
  "`Functions <pepper_" ++ channel ++ "/c/group___functions.html>`__\n" ++
  rulerLine 59 '=' ++ "\n" ++
  "`Enums <pepper_" ++ channel ++ "/c/group___enums.html>`__\n" ++
  rulerLine 51 '=' ++ "\n" ++
  "`Typedefs <pepper_" ++ channel ++ "/c/group___typedefs.html>`__\n" ++
  rulerLine 57 '=' ++ "\n" ++
  "`Macros <pepper_" ++ channel ++ "/c/globals_defs.html>`__\n" ++
  rulerLine 51 '=' ++ "\n" ++
  "Files\n" ++
  rulerLine 5 '=' ++
  files ++ "\n"

/-- `CPP_FILE_CONTENTS % vars()`: the C++ index template with all
placeholders substituted. -/
def CPP_FILE_CONTENTS (channel channelAlt channelTitle version classes files : String) :
    String :=
  ".. _pepper_" ++ channel ++ "_cpp_index:\n" ++
  ".. _cpp-api" ++ channelAlt ++ ":\n\n" ++
  ".. DO NOT EDIT! This document is auto-generated by doxygen/rst_index.py.\n\n" ++
  ".. include:: /migration/deprecation.inc\n\n" ++
  rulerLine 44 '#' ++
  "Pepper C++ API Reference (" ++ channelTitle ++ ")\n" ++
  rulerLine 44 '#' ++ "\n" ++
  "This page lists the C++ API for Pepper " ++ version ++ ". Apps that use this API can\n" ++
  "run in Chrome " ++ version ++ " or higher.\n\n" ++
  "`Classes <pepper_" ++ channel ++ "/cpp/inherits.html>`__\n" ++
  rulerLine 50 '=' ++
  classes ++ "\n\n" ++
  "Files\n" ++
  rulerLine 5 '=' ++
  files ++ "\n"

/-- Python exceptions that can escape the generators:
`UnboundLocalError` from `GetName` and `IndexError` from `MakeTitleCase`. -/
inductive PyError
  | nameError
  | indexError
deriving DecidableEq

/-- `GenerateRootIndex`: render the whole document into an in-memory buffer
(`cStringIO`), then open and write the output file.  The file-system effect
on the output path is modelled by the `Option String` component: the prior
state `outFile` is returned unchanged on error, and replaced by the rendered
content on success (the `open(out_filename, 'w')` + `write` happen only
after rendering succeeded). -/
def GenerateRootIndex (channel version : String) (outFile : Option String) :
    Option String × Except PyError Unit :=
  match MakeTitleCase channel with
  | none => (outFile, Except.error PyError.indexError)
  | some channelTitle =>
    let _channelAlt := MakeChannelAlt channel
    (some (ROOT_FILE_CONTENTS channel channelTitle version), Except.ok ())

/-- `GenerateCIndex`: compute the three file lists, render into the buffer,
then open and write; `dirFiles` stands for the listing of `root_dir`.
Any error raised while computing the lists or the title leaves the output
path in its prior state `outFile`. -/
def GenerateCIndex (dirFiles : List String) (channel version : String)
    (outFile : Option String) : Option String × Except PyError Unit :=
  let pfx := "pepper_" ++ channel ++ "/c"
  match MakeReSTListFromFiles pfx dirFiles C_INTERFACE_WILDCARDS none with
  | none => (outFile, Except.error PyError.nameError)
  | some interfaces =>
    match MakeReSTListFromFiles pfx dirFiles C_STRUCT_WILDCARDS none with
    | none => (outFile, Except.error PyError.nameError)
    | some structures =>
      match MakeReSTListFromFiles pfx dirFiles FILE_WILDCARDS none with
      | none => (outFile, Except.error PyError.nameError)
      | some files =>
        match MakeTitleCase channel with
        | none => (outFile, Except.error PyError.indexError)
        | some channelTitle =>
          let channelAlt := MakeChannelAlt channel
          (some (C_FILE_CONTENTS channel channelAlt channelTitle version
              interfaces structures files), Except.ok ())

/-- `GenerateCppIndex`: same shape as `GenerateCIndex`, with the class list
filtered by the `*-members*` exclusion. -/
def GenerateCppIndex (dirFiles : List String) (channel version : String)
    (outFile : Option String) : Option String × Except PyError Unit :=
  let pfx := "pepper_" ++ channel ++ "/cpp"
  match MakeReSTListFromFiles pfx dirFiles CPP_CLASSES_WILDCARDS (some CPP_CLASSES_EXCLUDES) with
  | none => (outFile, Except.error PyError.nameError)
  | some classes =>
    match MakeReSTListFromFiles pfx dirFiles FILE_WILDCARDS none with
    | none => (outFile, Except.error PyError.nameError)
    | some files =>
      match MakeTitleCase channel with
      | none => (outFile, Except.error PyError.indexError)
      | some channelTitle =>
        let channelAlt := MakeChannelAlt channel
        (some (CPP_FILE_CONTENTS channel channelAlt channelTitle version classes files),
          Except.ok ())

/-- The one-of-three generation mode selected by `--root` / `--c` / `--cpp`. -/
inductive GenMode
  | root
  | c
  | cpp
deriving DecidableEq

/-- The dispatch of `main`: run the selected generator. -/
def runGenerator (mode : GenMode) (dirFiles : List String) (channel version : String)
    (outFile : Option String) : Option String × Except PyError Unit :=
  match mode with
  | GenMode.root => GenerateRootIndex channel version outFile
  | GenMode.c => GenerateCIndex dirFiles channel version outFile
  | GenMode.cpp => GenerateCppIndex dirFiles channel version outFile

/-! ## remoting_ios_localize.py -/

/-- The `LocalizeException` domain error, with one constructor per `raise`
site: the two in the `Localizable.strings` loop of `generate`, and the two
in `LocalizedStringJinja2Adapter.__getattr__`. -/
inductive LocalizeException
  | missingId (name : String)
  | missingString (name : String) (value : Nat)
  | adapterMissingId (name : String)
  | adapterMissingString (name : String) (value : Nat)
deriving DecidableEq

/-- Python `u_string.replace(old, new)` for a single-character `old`,
on character lists. -/
def replaceChar (old : Char) (new : List Char) : List Char → List Char
  | [] => []
  | c :: rest => (if c = old then new else [c]) ++ replaceChar old new rest

/-- `decode_and_escape`: UTF-8 decode the payload, then escape backslashes
and double quotes (in that order).  The pack payload is modelled as the Lean
`String` holding its UTF-8 decoding, so the `codecs.decode(data, 'utf-8')`
step is the identity here. -/
def decode_and_escape (data : String) : String :=
  String.mk (replaceChar '"' ['\\', '"'] (replaceChar '\\' ['\\', '\\'] data.data))

/-- One line of `Localizable.strings`:
`u'"%s" = "%s";\n' % (id_str, decode_and_escape(localized_data))`. -/
def mkStringsLine (idStr data : String) : String :=
  "\"" ++ idStr ++ "\" = \"" ++ decode_and_escape data ++ "\";\n"

/-- The `Localizable.strings` loop of `generate` for one locale.  `idMap` is
the resource-header map (`id_map.get`), `pack` the locale data pack
(`pack.resources.get`).  Python tests `if not id_value:` and
`if not localized_data:`, so a missing key, a zero ID value and an empty
payload all raise.  The returned list holds the lines written to the open
file before the error (they are flushed when the `with` block closes the
file, even when an exception escapes); the `Option LocalizeException` is the
exception, if any. -/
def writeLocalizableStrings (idMap : String → Option Nat) (pack : Nat → Option String) :
    List String → List String × Option LocalizeException
  | [] => ([], none)
  | idStr :: rest =>
    match idMap idStr with
    | none => ([], some (LocalizeException.missingId idStr))
    | some v =>
      if v = 0 then ([], some (LocalizeException.missingId idStr))
      else
        match pack v with
        | none => ([], some (LocalizeException.missingString idStr v))
        | some data =>
          if data = "" then ([], some (LocalizeException.missingString idStr v))
          else
            let r := writeLocalizableStrings idMap pack rest
            (mkStringsLine idStr data :: r.1, r.2)

/-- `LocalizedStringJinja2Adapter.__getattr__`: look the name up in the
resource header map and the data pack with the same falsy tests as the
`generate` loop, raising `LocalizeException` on failure, and return the
decoded and escaped string on success. -/
def adapterGetattr (idMap : String → Option Nat) (pack : Nat → Option String)
    (name : String) : Except LocalizeException String :=
  match idMap name with
  | none => Except.error (LocalizeException.adapterMissingId name)
  | some v =>
    if v = 0 then Except.error (LocalizeException.adapterMissingId name)
    else
      match pack v with
      | none => Except.error (LocalizeException.adapterMissingString name v)
      | some data =>
        if data = "" then Except.error (LocalizeException.adapterMissingString name v)
        else Except.ok (decode_and_escape data)

/-- The top level of `DoMain` for the `Localizable.strings` part of one
locale: `generate` runs inside `try/except LocalizeException`, and on a
`LocalizeException` the process exits with code 1 (`sys.exit(1)`); the lines
already written remain in the output file.  Returns (exit code, final file
lines). -/
def doMainLocalizable (idMap : String → Option Nat) (pack : Nat → Option String)
    (ids : List String) : Nat × List String :=
  let r := writeLocalizableStrings idMap pack ids
  match r.2 with
  | some _ => (1, r.1)
  | none => (0, r.1)

/-! ## generate_integrity_header.py : SHA-256, base64 and the header -/

/-- Addition modulo `2 ^ 32`. -/
def add32 (a b : Nat) : Nat := (a + b) % 4294967296

/-- Right rotation of a 32-bit word. -/
def rotr32 (n x : Nat) : Nat :=
  (x >>> n) ||| ((x <<< (32 - n)) % 4294967296)

/-- SHA-256 small sigma 0. -/
def ssig0 (x : Nat) : Nat := rotr32 7 x ^^^ rotr32 18 x ^^^ (x >>> 3)

/-- SHA-256 small sigma 1. -/
def ssig1 (x : Nat) : Nat := rotr32 17 x ^^^ rotr32 19 x ^^^ (x >>> 10)

/-- SHA-256 big sigma 0. -/
def bsig0 (x : Nat) : Nat := rotr32 2 x ^^^ rotr32 13 x ^^^ rotr32 22 x

/-- SHA-256 big sigma 1. -/
def bsig1 (x : Nat) : Nat := rotr32 6 x ^^^ rotr32 11 x ^^^ rotr32 25 x

/-- SHA-256 choose function. -/
def chFn (x y z : Nat) : Nat := (x &&& y) ^^^ ((x ^^^ 4294967295) &&& z)

/-- SHA-256 majority function. -/
def majFn (x y z : Nat) : Nat := (x &&& y) ^^^ (x &&& z) ^^^ (y &&& z)

/-- The 64 SHA-256 round constants. -/
def sha256K : List Nat :=
  [1116352408, 1899447441, 3049323471, 3921009573, 961987163,
   1508970993, 2453635748, 2870763221, 3624381080, 310598401,
   607225278, 1426881987, 1925078388, 2162078206, 2614888103,
   3248222580, 3835390401, 4022224774, 264347078, 604807628,
   770255983, 1249150122, 1555081692, 1996064986, 2554220882,
   2821834349, 2952996808, 3210313671, 3336571891, 3584528711,
   113926993, 338241895, 666307205, 773529912, 1294757372,
   1396182291, 1695183700, 1986661051, 2177026350, 2456956037,
   2730485921, 2820302411, 3259730800, 3345764771, 3516065817,
   3600352804, 4094571909, 275423344, 430227734, 506948616,
   659060556, 883997877, 958139571, 1322822218, 1537002063,
   1747873779, 1955562222, 2024104815, 2227730452, 2361852424,
   2428436474, 2756734187, 3204031479, 3329325298]

/-- The SHA-256 initial hash state. -/
def sha256H0 : List Nat :=
  [1779033703, 3144134277, 1013904242, 2773480762,
   1359893119, 2600822924, 528734635, 1541459225]

/-- Big-endian byte serialization of `n` into `k` bytes. -/
def toBytesBE : Nat → Nat → List Nat
  | 0, _ => []
  | k + 1, n => toBytesBE k (n / 256) ++ [n % 256]

/-- SHA-256 message padding: append `0x80`, zero bytes up to 56 mod 64, and
the 64-bit big-endian bit length. -/
def sha256Pad (msg : List Nat) : List Nat :=
  let lenB := msg.length
  let z := (64 + 56 - (lenB + 1) % 64) % 64
  msg ++ [0x80] ++ List.replicate z 0 ++ toBytesBE 8 (8 * lenB)

/-- Group bytes into big-endian 32-bit words. -/
def bytesToWords : List Nat → List Nat
  | b0 :: b1 :: b2 :: b3 :: rest =>
    (((b0 * 256 + b1) * 256 + b2) * 256 + b3) :: bytesToWords rest
  | _ => []

/-- Split a word list into 16-word blocks (fuel-driven; the input length is
a multiple of 16 after padding). -/
def toBlocksF : Nat → List Nat → List (List Nat)
  | 0, _ => []
  | _ + 1, [] => []
  | fuel + 1, ws => ws.take 16 :: toBlocksF fuel (ws.drop 16)

/-- Split a word list into 16-word blocks. -/
def toBlocks (ws : List Nat) : List (List Nat) := toBlocksF ws.length ws

/-- One step of the SHA-256 message-schedule extension. -/
def scheduleStep (w : List Nat) : List Nat :=
  let n := w.length
  w ++ [add32 (add32 (ssig1 (w.getD (n - 2) 0)) (w.getD (n - 7) 0))
          (add32 (ssig0 (w.getD (n - 15) 0)) (w.getD (n - 16) 0))]

/-- Extend a 16-word block to the 64-word message schedule. -/
def schedule (block : List Nat) : List Nat :=
  (List.range 48).foldl (fun w _ => scheduleStep w) block

/-- One SHA-256 compression round on the 8-word working state. -/
def compressStep (st : List Nat) (wk : Nat × Nat) : List Nat :=
  match st with
  | [a, b, c, d, e, f, g, h] =>
    let t1 := add32 h (add32 (bsig1 e) (add32 (chFn e f g) (add32 wk.2 wk.1)))
    let t2 := add32 (bsig0 a) (majFn a b c)
    [add32 t1 t2, a, b, c, add32 d t1, e, f, g]
  | other => other

/-- Process one 16-word block: run the 64 compression rounds over the
schedule and add the result into the hash state. -/
def processBlock (h : List Nat) (block : List Nat) : List Nat :=
  let st := ((schedule block).zip sha256K).foldl compressStep h
  (h.zip st).map (fun p => add32 p.1 p.2)

/-- SHA-256 of a byte sequence, as the 32-byte digest. -/
def sha256 (msg : List Nat) : List Nat :=
  ((toBlocks (bytesToWords (sha256Pad msg))).foldl processBlock sha256H0).flatMap
    (toBytesBE 4)

/-- The base64 alphabet. -/
def b64Table : List Char :=
  "ABCDEFGHIJKLMNOPQRSTUVWXYZabcdefghijklmnopqrstuvwxyz0123456789+/".data

/-- Character of the base64 alphabet at index `i`. -/
def b64At (i : Nat) : Char := b64Table.getD i 'A'

/-- Standard base64 encoding of a byte list (`base64.b64encode`), with
`=` padding. -/
def b64encodeBytes : List Nat → List Char
  | [] => []
  | [b0] => [b64At (b0 / 4), b64At (b0 % 4 * 16), '=', '=']
  | [b0, b1] => [b64At (b0 / 4), b64At (b0 % 4 * 16 + b1 / 16), b64At (b1 % 16 * 4), '=']
  | b0 :: b1 :: b2 :: rest =>
    b64At (b0 / 4) :: b64At (b0 % 4 * 16 + b1 / 16) ::
      b64At (b1 % 16 * 4 + b2 / 64) :: b64At (b2 % 64) :: b64encodeBytes rest

/-- `ComputeIntegrity`: base64-encoded SHA-256 digest of the file content
(`content` stands for the bytes returned by `f.read()`). -/
def ComputeIntegrity (content : List Nat) : String :=
  String.mk (b64encodeBytes (sha256 content))

/-- `re.sub('\W', '_', input_filename.upper()) + '_INTEGRITY'`: the
preprocessor symbol derived from a file name. -/
def defineNameOf (filename : String) : String :=
  String.mk (filename.data.map
      (fun c => let u := c.toUpper
        if u.isAlphanum || u = '_' then u else '_')) ++ "_INTEGRITY"

/-- `WriteHeader`: the full generated header content for a list of
(basename, integrity) pairs. -/
def WriteHeader (pairs : List (String × String)) : String :=
  "// DO NOT MODIFY THIS FILE DIRECTLY!\n" ++
  "// IT IS GENERATED BY generate_integrity_header.py\n" ++
  "// FROM:\n" ++
  String.join (pairs.map (fun p => "//     * " ++ p.1 ++ "\n")) ++
  "\n" ++
  String.join (pairs.map (fun p =>
    "#define " ++ defineNameOf p.1 ++ " \"" ++ p.2 ++ "\"\n\n"))

/-- The whole generator `main`: compute each input's integrity and write the
header.  Inputs are (basename, content bytes) pairs. -/
def GenerateIntegrityHeader (inputs : List (String × List Nat)) : String :=
  WriteHeader (inputs.map (fun p => (p.1, ComputeIntegrity p.2)))

/-! ## Helper lemmas -/

theorem demangleLoop_append (u v : List Char) :
    ∀ cap, demangleLoop cap (u ++ v) = demangleLoop cap u ++ demangleLoop (capAfter cap u) v := by
  induction u with
  | nil => intro cap; rfl
  | cons c u ih =>
    intro cap
    by_cases hc : c = '_' <;> cases cap <;> simp [demangleLoop, capAfter, hc, ih]

theorem capAfter_append (u v : List Char) :
    ∀ cap, capAfter cap (u ++ v) = capAfter (capAfter cap u) v := by
  induction u with
  | nil => intro cap; rfl
  | cons c u ih =>
    intro cap
    by_cases hc : c = '_' <;> cases cap <;> simp [capAfter, hc, ih]

theorem capAfter_snoc (w : List Char) (d : Char) (hd : d ≠ '_') (cap : Bool) :
    capAfter cap (w ++ [d]) = false := by
  rw [capAfter_append]
  simp [capAfter, hd]

theorem strLeB_total : ∀ a b : List Char, strLeB a b = true ∨ strLeB b a = true := by
  intro a
  induction a with
  | nil => intro b; left; rfl
  | cons c cs ih =>
    intro b
    cases b with
    | nil => right; rfl
    | cons d ds =>
      by_cases hcd : c = d
      · subst hcd
        rcases ih ds with h | h <;> simp [strLeB, h]
      · rcases lt_or_gt_of_ne hcd with hlt | hgt
        · left; simp [strLeB, hcd, hlt]
        · right; simp [strLeB, Ne.symm hcd, hgt]

theorem strLeB_trans :
    ∀ a b c : List Char, strLeB a b = true → strLeB b c = true → strLeB a c = true := by
  intro a
  induction a with
  | nil => intro b c _ _; rfl
  | cons x xs ih =>
    intro b c hab hbc
    cases b with
    | nil => simp [strLeB] at hab
    | cons y ys =>
      cases c with
      | nil => simp [strLeB] at hbc
      | cons z zs =>
        by_cases hxy : x = y <;> by_cases hyz : y = z
        · subst hxy; subst hyz
          simp only [strLeB, if_pos rfl] at hab hbc ⊢
          exact ih ys zs hab hbc
        · subst hxy
          simp only [strLeB, if_neg hyz] at hbc ⊢
          exact hbc
        · subst hyz
          simp only [strLeB, if_neg hxy] at hab ⊢
          exact hab
        · simp only [strLeB, if_neg hxy, if_neg hyz, decide_eq_true_eq] at hab hbc
          have hxz : x < z := lt_trans hab hbc
          simp [strLeB, ne_of_lt hxz, hxz]

theorem strLeB_antisymm :
    ∀ a b : List Char, strLeB a b = true → strLeB b a = true → a = b := by
  intro a
  induction a with
  | nil =>
    intro b _ hba
    cases b with
    | nil => rfl
    | cons d ds => simp [strLeB] at hba
  | cons c cs ih =>
    intro b hab hba
    cases b with
    | nil => simp [strLeB] at hab
    | cons d ds =>
      by_cases hcd : c = d
      · subst hcd
        simp only [strLeB, if_pos rfl] at hab hba
        rw [ih ds hab hba]
      · simp only [strLeB, if_neg hcd, if_neg (Ne.symm hcd), decide_eq_true_eq] at hab hba
        exact absurd hba (lt_asymm hab)

instance pyLeTrans : IsTrans String pyLe :=
  ⟨fun a b c => strLeB_trans a.data b.data c.data⟩

instance pyLeTotal : IsTotal String pyLe :=
  ⟨fun a b => strLeB_total a.data b.data⟩

instance pyLeAntisymm : IsAntisymm String pyLe :=
  ⟨fun a b hab hba => by
    cases a; cases b
    exact congrArg String.mk (strLeB_antisymm _ _ hab hba)⟩

theorem sortStrings_sorted (l : List String) : List.Sorted pyLe (sortStrings l) :=
  List.sorted_insertionSort _ l

theorem sortStrings_perm (l : List String) : (sortStrings l).Perm l :=
  List.perm_insertionSort _ l

theorem sortStrings_eq_of_perm {l1 l2 : List String} (h : l1.Perm l2) :
    sortStrings l1 = sortStrings l2 :=
  List.eq_of_perm_of_sorted ((sortStrings_perm l1).trans (h.trans (sortStrings_perm l2).symm))
    (sortStrings_sorted l1) (sortStrings_sorted l2)

theorem makeGoodFiles_sorted (dirFiles incl : List String) (excludes : Option (List String)) :
    List.Sorted pyLe (MakeGoodFiles dirFiles incl excludes) := by
  unfold MakeGoodFiles
  cases excludes <;> exact sortStrings_sorted _

theorem count_filter_eq (p : String → Bool) (a : String) (l : List String) :
    (l.filter p).count a = if p a then l.count a else 0 := by
  by_cases h : p a
  · simp [h, List.count_filter]
  · have hf : p a = false := by simpa using h
    simp only [hf, Bool.false_eq_true, if_false, List.count_eq_zero]
    intro hmem
    exact h (List.of_mem_filter hmem)

theorem count_flatMap_filter (d : List String) (hl : d.Nodup) (pats : List String)
    (f : String) :
    (pats.flatMap (fun m => d.filter (fun x => fnmatchFn x m))).count f =
      if f ∈ d then pats.countP (fun m => fnmatchFn f m) else 0 := by
  induction pats with
  | nil => simp
  | cons m ms ih =>
    simp only [List.flatMap_cons, List.count_append, ih]
    rw [count_filter_eq]
    by_cases hd : f ∈ d
    · have h1 : d.count f = 1 := List.count_eq_one_of_mem hl hd
      by_cases hm : fnmatchFn f m <;> simp [hd, hm, h1, List.countP_cons, Nat.add_comm]
    · have h0 : d.count f = 0 := List.count_eq_zero.2 hd
      by_cases hm : fnmatchFn f m <;> simp [hd, hm, h0]

theorem count_foldl_excludes (exs : List String) (f : String) :
    ∀ l : List String,
      (exs.foldl (fun acc e => acc.filter (fun x => !(fnmatchFn x e))) l).count f =
        if exs.all (fun e => !(fnmatchFn f e)) then l.count f else 0 := by
  induction exs with
  | nil => intro l; simp
  | cons e es ih =>
    intro l
    simp only [List.foldl_cons, List.all_cons]
    rw [ih, count_filter_eq]
    by_cases he : fnmatchFn f e <;>
      by_cases hes : es.all (fun x => !(fnmatchFn f x)) <;> simp [he, hes]

theorem makeGoodFiles_count (dirFiles incl : List String) (excludes : Option (List String))
    (hnd : dirFiles.Nodup) (f : String) :
    (MakeGoodFiles dirFiles incl excludes).count f =
      if f ∈ dirFiles ∧ (excludes.getD []).all (fun e => !(fnmatchFn f e)) then
        incl.countP (fun m => fnmatchFn f m)
      else 0 := by
  unfold MakeGoodFiles
  cases excludes with
  | none =>
    rw [(sortStrings_perm _).count_eq, count_flatMap_filter dirFiles hnd]
    simp
  | some exs =>
    rw [(sortStrings_perm _).count_eq, count_foldl_excludes,
      count_flatMap_filter dirFiles hnd]
    by_cases hex : exs.all (fun e => !(fnmatchFn f e)) <;>
      by_cases hd : f ∈ dirFiles <;> simp [hex, hd]

theorem flatMap_filter_perm (pats : List String) {d1 d2 : List String} (h : d1.Perm d2) :
    (pats.flatMap (fun m => d1.filter (fun x => fnmatchFn x m))).Perm
      (pats.flatMap (fun m => d2.filter (fun x => fnmatchFn x m))) := by
  induction pats with
  | nil => simp
  | cons m ms ih => simpa using (h.filter _).append ih

theorem foldl_excludes_perm (exs : List String) :
    ∀ {l1 l2 : List String}, l1.Perm l2 →
      (exs.foldl (fun acc e => acc.filter (fun x => !(fnmatchFn x e))) l1).Perm
        (exs.foldl (fun acc e => acc.filter (fun x => !(fnmatchFn x e))) l2) := by
  induction exs with
  | nil => intro l1 l2 h; simpa using h
  | cons e es ih => intro l1 l2 h; simpa using ih (h.filter _)

theorem makeGoodFiles_eq_of_perm (incl : List String) (excludes : Option (List String))
    {d1 d2 : List String} (h : d1.Perm d2) :
    MakeGoodFiles d1 incl excludes = MakeGoodFiles d2 incl excludes := by
  unfold MakeGoodFiles
  cases excludes with
  | none => exact sortStrings_eq_of_perm (flatMap_filter_perm incl h)
  | some exs => exact sortStrings_eq_of_perm (foldl_excludes_perm exs (flatMap_filter_perm incl h))

theorem writeLocalizable_ok (idMap : String → Option Nat) (pack : Nat → Option String) :
    ∀ ids : List String, (writeLocalizableStrings idMap pack ids).2 = none →
      ∀ name ∈ ids, ∃ v data, idMap name = some v ∧ v ≠ 0 ∧
        pack v = some data ∧ data ≠ "" := by
  intro ids
  induction ids with
  | nil => intro _ name h; cases h
  | cons i rest ih =>
    intro hok name hmem
    rcases h1 : idMap i with _ | v
    · simp only [writeLocalizableStrings, h1] at hok
      simp at hok
    · simp only [writeLocalizableStrings, h1] at hok
      by_cases hv : v = 0
      · rw [if_pos hv] at hok; simp at hok
      · rw [if_neg hv] at hok
        rcases h2 : pack v with _ | data
        · simp only [h2] at hok; simp at hok
        · simp only [h2] at hok
          by_cases hdata : data = ""
          · rw [if_pos hdata] at hok; simp at hok
          · rw [if_neg hdata] at hok
            simp only [] at hok
            rcases List.mem_cons.1 hmem with hni | hni
            · subst hni; exact ⟨v, data, h1, hv, h2, hdata⟩
            · exact ih hok name hni

theorem writeLocalizable_lines (idMap : String → Option Nat) (pack : Nat → Option String) :
    ∀ (ids : List String) (line : String),
      line ∈ (writeLocalizableStrings idMap pack ids).1 →
      ∃ idStr v data, idStr ∈ ids ∧ idMap idStr = some v ∧ v ≠ 0 ∧
        pack v = some data ∧ data ≠ "" ∧ line = mkStringsLine idStr data := by
  intro ids
  induction ids with
  | nil => intro line h; cases h
  | cons i rest ih =>
    intro line hline
    rcases h1 : idMap i with _ | v
    · simp only [writeLocalizableStrings, h1] at hline
      simp at hline
    · simp only [writeLocalizableStrings, h1] at hline
      by_cases hv : v = 0
      · rw [if_pos hv] at hline; simp at hline
      · rw [if_neg hv] at hline
        rcases h2 : pack v with _ | data
        · simp only [h2] at hline; simp at hline
        · simp only [h2] at hline
          by_cases hdata : data = ""
          · rw [if_pos hdata] at hline; simp at hline
          · rw [if_neg hdata] at hline
            simp only [List.mem_cons] at hline
            rcases hline with he | he
            · exact ⟨i, v, data, List.mem_cons_self i rest, h1, hv, h2, hdata, he⟩
            · rcases ih line he with ⟨j, v2, d2, hj, hm2, hv2, hp2, hd2, he2⟩
              exact ⟨j, v2, d2, List.mem_cons_of_mem i hj, hm2, hv2, hp2, hd2, he2⟩

theorem generateRootIndex_error (channel version : String) (outFile : Option String)
    (e : PyError) (h : (GenerateRootIndex channel version outFile).2 = Except.error e) :
    (GenerateRootIndex channel version outFile).1 = outFile := by
  rcases hm : MakeTitleCase channel with _ | t
  · simp [GenerateRootIndex, hm]
  · simp [GenerateRootIndex, hm] at h

theorem generateCIndex_error (dirFiles : List String) (channel version : String)
    (outFile : Option String) (e : PyError)
    (h : (GenerateCIndex dirFiles channel version outFile).2 = Except.error e) :
    (GenerateCIndex dirFiles channel version outFile).1 = outFile := by
  rcases h1 : MakeReSTListFromFiles ("pepper_" ++ channel ++ "/c") dirFiles
      C_INTERFACE_WILDCARDS none with _ | i
  · simp [GenerateCIndex, h1]
  · rcases h2 : MakeReSTListFromFiles ("pepper_" ++ channel ++ "/c") dirFiles
        C_STRUCT_WILDCARDS none with _ | st
    · simp [GenerateCIndex, h1, h2]
    · rcases h3 : MakeReSTListFromFiles ("pepper_" ++ channel ++ "/c") dirFiles
          FILE_WILDCARDS none with _ | fs
      · simp [GenerateCIndex, h1, h2, h3]
      · rcases h4 : MakeTitleCase channel with _ | t
        · simp [GenerateCIndex, h1, h2, h3, h4]
        · simp [GenerateCIndex, h1, h2, h3, h4] at h

theorem generateCppIndex_error (dirFiles : List String) (channel version : String)
    (outFile : Option String) (e : PyError)
    (h : (GenerateCppIndex dirFiles channel version outFile).2 = Except.error e) :
    (GenerateCppIndex dirFiles channel version outFile).1 = outFile := by
  rcases h1 : MakeReSTListFromFiles ("pepper_" ++ channel ++ "/cpp") dirFiles
      CPP_CLASSES_WILDCARDS (some CPP_CLASSES_EXCLUDES) with _ | cl
  · simp [GenerateCppIndex, h1]
  · rcases h2 : MakeReSTListFromFiles ("pepper_" ++ channel ++ "/cpp") dirFiles
        FILE_WILDCARDS none with _ | fs
    · simp [GenerateCppIndex, h1, h2]
    · rcases h3 : MakeTitleCase channel with _ | t
      · simp [GenerateCppIndex, h1, h2, h3]
      · simp [GenerateCppIndex, h1, h2, h3] at h

/-! ## Claim theorems -/

/-- Claim C1, counterexample.  On the spec's example input
`struct_p_p_b__audio_1_1`, `GetName` does not return `PPB_Audio`: after
`struct_` is stripped, the double underscore before `audio` consumes the
pending capitalization state, so `audio` stays lower case and the trailing
`_1_1` demangles to `11` (no underscores remain for the version-suffix
regex to strip); the result is `PPB_audio11`. -/
theorem c1_counterexample :
    GetName "struct_p_p_b__audio_1_1" = some "PPB_audio11" ∧
      GetName "struct_p_p_b__audio_1_1" ≠ some "PPB_Audio" := by
  constructor
  · decide
  · decide

/-- Claim C1, amended.  For the doxygen-mangled filename of `PPB_Audio`
version 1.1, which is `struct_p_p_b___audio__1__1`, `GetName` strips the
`struct_` prefix, decodes the underscore case-encoding to `PPB_Audio_1_1`,
and strips the trailing version suffix `_1_1`, returning `PPB_Audio`. -/
theorem c1_theorem : GetName "struct_p_p_b___audio__1__1" = some "PPB_Audio" := by
  decide

/-- Claim C2 (code bug).  For a filename matching no prefix family and not
ending in `_8h`, `GetName` does print the diagnostic, but then falls
through to `for c in mangle:` with the local `mangle` never assigned, so it
raises `UnboundLocalError` instead of returning the empty string; the crash
is modelled as `none`, which differs from the `some ""` the claim
describes. -/
theorem c2_theorem : GetName "foo" = none ∧ GetName "foo" ≠ some "" := by
  constructor
  · decide
  · decide

/-- Claim C3, counterexample.  With the resource map `{IDS_A: 1}` and the
pack `{1: "x"}`, requesting `[IDS_A, IDS_B]` raises a `LocalizeException`
for `IDS_B`, but the line for `IDS_A` has already been written to the
opened `Localizable.strings` file (and is flushed when the `with` block
closes it), so partial output for the locale does exist on error. -/
theorem c3_counterexample :
    ((writeLocalizableStrings (fun s => if s = "IDS_A" then some 1 else none)
        (fun n => if n = 1 then some "x" else none) ["IDS_A", "IDS_B"]).2).isSome = true ∧
      (writeLocalizableStrings (fun s => if s = "IDS_A" then some 1 else none)
        (fun n => if n = 1 then some "x" else none) ["IDS_A", "IDS_B"]).1 =
        ["\"IDS_A\" = \"x\";\n"] := by
  constructor
  · decide
  · decide

/-- Claim C3, amended.  If some requested ID is absent from the
resource-header map, or has a value with no entry in the locale's data
pack, then generating `Localizable.strings` raises a `LocalizeException`,
which is caught at the top level of `DoMain` and turns into exit code 1;
however, the lines for IDs processed before the failure remain written in
the output file (partial output is possible). -/
theorem c3_theorem (idMap : String → Option Nat) (pack : Nat → Option String)
    (ids : List String) (name : String) (hmem : name ∈ ids)
    (hbad : idMap name = none ∨ ∃ v, idMap name = some v ∧ pack v = none) :
    (∃ ex, (writeLocalizableStrings idMap pack ids).2 = some ex) ∧
      (doMainLocalizable idMap pack ids).1 = 1 := by
  have herr : ∃ ex, (writeLocalizableStrings idMap pack ids).2 = some ex := by
    rcases h : (writeLocalizableStrings idMap pack ids).2 with _ | ex
    · exfalso
      rcases writeLocalizable_ok idMap pack ids h name hmem with ⟨v, data, hv, _, hp, _⟩
      rcases hbad with hb | ⟨v2, hb, hp2⟩
      · rw [hb] at hv; cases hv
      · rw [hb] at hv
        cases hv
        rw [hp2] at hp
        cases hp
    · exact ⟨ex, rfl⟩
  refine ⟨herr, ?_⟩
  rcases herr with ⟨ex, hex⟩
  simp only [doMainLocalizable, hex]

/-- Claim C3, witness: a concrete run with a missing ID raises and exits
with code 1. -/
theorem c3_witness :
    (∃ ex, (writeLocalizableStrings (fun _ => none) (fun _ => none) ["IDS_A"]).2 = some ex) ∧
      (doMainLocalizable (fun _ => none) (fun _ => none) ["IDS_A"]).1 = 1 :=
  c3_theorem (fun _ => none) (fun _ => none) ["IDS_A"] "IDS_A" (by decide) (Or.inl rfl)

/-- Claim C4, counterexample.  The rule "a single underscore capitalizes
the following letter" fails at the very start of the stripped remainder,
because the demangling loop starts with `cap = True`: for the filename
`classpp_1_1__a` the remainder is `_a`, whose single underscore is emitted
as a literal underscore with `a` left in lower case, giving `_a` rather
than `A`. -/
theorem c4_counterexample :
    GetName "classpp_1_1__a" = some "_a" ∧
      ¬ (∀ (rest : List Char) (c : Char), c ≠ '_' →
          demangleLoop true ('_' :: c :: rest) = c.toUpper :: demangleLoop false rest) := by
  constructor
  · decide
  · intro h
    have h2 := h [] 'a' (by decide)
    exact absurd h2 (by decide)

/-- Claim C4, amended.  At any occurrence that is not at the start of the
remainder — i.e. directly after some character `d` that is not an
underscore — the claim holds: a double underscore contributes exactly one
literal underscore to the output, and a single underscore is removed and
makes the immediately following character come out in upper case. -/
theorem c4_theorem (w rest : List Char) (d c : Char) (hd : d ≠ '_') (hc : c ≠ '_') :
    demangleLoop true (w ++ d :: '_' :: '_' :: rest)
        = demangleLoop true (w ++ [d]) ++ '_' :: demangleLoop false rest
      ∧ demangleLoop true (w ++ d :: '_' :: c :: rest)
        = demangleLoop true (w ++ [d]) ++ c.toUpper :: demangleLoop false rest := by
  have e1 : w ++ d :: '_' :: '_' :: rest = (w ++ [d]) ++ '_' :: '_' :: rest := by simp
  have e2 : w ++ d :: '_' :: c :: rest = (w ++ [d]) ++ '_' :: c :: rest := by simp
  constructor
  · rw [e1, demangleLoop_append, capAfter_snoc w d hd]
    simp [demangleLoop]
  · rw [e2, demangleLoop_append, capAfter_snoc w d hd]
    simp [demangleLoop, hc]

/-- Claim C4, witness: concrete instance of the amended statement after the
non-underscore character `a`. -/
theorem c4_witness :
    demangleLoop true ['p', 'a', '_', '_', 'x']
        = demangleLoop true ['p', 'a'] ++ '_' :: demangleLoop false ['x']
      ∧ demangleLoop true ['p', 'a', '_', 'b', 'x']
        = demangleLoop true ['p', 'a'] ++ 'b'.toUpper :: demangleLoop false ['x'] :=
  c4_theorem ['p'] ['x'] 'a' 'b' (by decide) (by decide)

/-- Claim C5.  With the resource map `{IDS_X: 1}` and the pack
`{1: b"hello"}`, the generated `Localizable.strings` consists of exactly
the line `"IDS_X" = "hello";` (the payload is UTF-8 decoded and escaped by
`decode_and_escape` before insertion), and no exception is raised. -/
theorem c5_theorem :
    writeLocalizableStrings (fun s => if s = "IDS_X" then some 1 else none)
        (fun n => if n = 1 then some "hello" else none) ["IDS_X"] =
      (["\"IDS_X\" = \"hello\";\n"], none) := by
  decide

/-- Claim C6, counterexample.  A filename matching two inclusion patterns
is appended once per pattern (`good_files.extend(fnmatch.filter(...))` per
pattern), so it appears twice in the built list, not exactly once: with the
listing `["ab"]` and patterns `["a*", "*b"]` the list is `["ab", "ab"]`. -/
theorem c6_counterexample :
    MakeGoodFiles ["ab"] ["a*", "*b"] none = ["ab", "ab"] ∧
      (MakeGoodFiles ["ab"] ["a*", "*b"] none).count "ab" = 2 := by
  constructor
  · decide
  · decide

/-- Claim C6, amended.  For a duplicate-free directory listing, the file
list built by `MakeReSTListFromFiles` is sorted, and each filename that
matches at least one inclusion pattern and no exclusion pattern appears
with multiplicity equal to the number of inclusion patterns it matches
(all other filenames are absent). -/
theorem c6_theorem (dirFiles incl : List String) (excludes : Option (List String))
    (hnd : dirFiles.Nodup) (f : String) :
    List.Sorted pyLe (MakeGoodFiles dirFiles incl excludes) ∧
      (MakeGoodFiles dirFiles incl excludes).count f =
        (if f ∈ dirFiles ∧ (excludes.getD []).all (fun e => !(fnmatchFn f e)) then
          incl.countP (fun m => fnmatchFn f m)
        else 0) :=
  ⟨makeGoodFiles_sorted dirFiles incl excludes, makeGoodFiles_count dirFiles incl excludes hnd f⟩

/-- Claim C6, witness: the amended statement at a concrete listing with one
matching and one non-matching file and one exclusion pattern. -/
theorem c6_witness :
    List.Sorted pyLe (MakeGoodFiles ["a_8h.html", "zz"] ["*_8h.html"] (some ["b*"])) ∧
      (MakeGoodFiles ["a_8h.html", "zz"] ["*_8h.html"] (some ["b*"])).count "a_8h.html" =
        (if "a_8h.html" ∈ ["a_8h.html", "zz"]
            ∧ ((some ["b*"] : Option (List String)).getD []).all
              (fun e => !(fnmatchFn "a_8h.html" e)) then
          (["*_8h.html"] : List String).countP (fun m => fnmatchFn "a_8h.html" m)
        else 0) :=
  c6_theorem ["a_8h.html", "zz"] ["*_8h.html"] (some ["b*"]) (by decide) "a_8h.html"

/-- Claim C7.  `MakeReSTListFromFiles` is deterministic and
order-independent: two duplicate-free directory listings with the same
members give identical output with the same patterns, and the underlying
file list is sorted before the display names are computed. -/
theorem c7_theorem (pfx : String) (d1 d2 incl : List String)
    (excludes : Option (List String)) (h1 : d1.Nodup) (h2 : d2.Nodup)
    (hmem : ∀ f, f ∈ d1 ↔ f ∈ d2) :
    MakeReSTListFromFiles pfx d1 incl excludes = MakeReSTListFromFiles pfx d2 incl excludes ∧
      List.Sorted pyLe (MakeGoodFiles d1 incl excludes) := by
  have hperm : d1.Perm d2 := (List.perm_ext_iff_of_nodup h1 h2).2 hmem
  have hg : MakeGoodFiles d1 incl excludes = MakeGoodFiles d2 incl excludes :=
    makeGoodFiles_eq_of_perm incl excludes hperm
  constructor
  · unfold MakeReSTListFromFiles
    rw [hg]
  · exact makeGoodFiles_sorted d1 incl excludes

/-- Claim C7, witness: the two orders of a concrete two-file listing give
identical output. -/
theorem c7_witness :
    MakeReSTListFromFiles "p" ["b_8h.html", "a_8h.html"] ["*_8h.html"] none =
        MakeReSTListFromFiles "p" ["a_8h.html", "b_8h.html"] ["*_8h.html"] none ∧
      List.Sorted pyLe (MakeGoodFiles ["b_8h.html", "a_8h.html"] ["*_8h.html"] none) :=
  c7_theorem "p" ["b_8h.html", "a_8h.html"] ["a_8h.html", "b_8h.html"] ["*_8h.html"] none
    (by decide) (by decide) (by intro f; simp [or_comm])

/-- Claim C8.  `ComputeIntegrity` is a pure function of the file content:
byte-identical contents yield the same base64-encoded SHA-256 digest, and
the whole header generator yields identical output on identical inputs. -/
theorem c8_theorem (c1 c2 : List Nat) (h : c1 = c2)
    (inputs1 inputs2 : List (String × List Nat)) (h2 : inputs1 = inputs2) :
    ComputeIntegrity c1 = ComputeIntegrity c2 ∧
      GenerateIntegrityHeader inputs1 = GenerateIntegrityHeader inputs2 := by
  subst h
  subst h2
  exact ⟨rfl, rfl⟩

/-- Claim C8, witness: determinism at a concrete content and input list. -/
theorem c8_witness :
    ComputeIntegrity [104, 105] = ComputeIntegrity [104, 105] ∧
      GenerateIntegrityHeader [("a.js", [104])] = GenerateIntegrityHeader [("a.js", [104])] :=
  c8_theorem [104, 105] [104, 105] rfl [("a.js", [104])] [("a.js", [104])] rfl

/-- Sanity check that the embedded SHA-256 and base64 are the real
functions: the known digest of the empty input. -/
theorem computeIntegrity_empty :
    ComputeIntegrity [] = "47DEQpj8HBSa+/TImW+5JCeuQeRkm5NMpJWZG3hSuFU=" := by
  decide

/-- Claim C9.  Each generator renders the whole document before opening the
output file, so whenever a generator run ends in an error (a `GetName`
crash while building a file list, or a `MakeTitleCase` crash), the output
path still holds its previous state: it was never opened, created or
truncated. -/
theorem c9_theorem (mode : GenMode) (dirFiles : List String) (channel version : String)
    (outFile : Option String) (e : PyError)
    (h : (runGenerator mode dirFiles channel version outFile).2 = Except.error e) :
    (runGenerator mode dirFiles channel version outFile).1 = outFile := by
  cases mode with
  | root => exact generateRootIndex_error channel version outFile e h
  | c => exact generateCIndex_error dirFiles channel version outFile e h
  | cpp => exact generateCppIndex_error dirFiles channel version outFile e h

/-- Claim C9, witness: the C++ generator on a directory holding
`classpp_1_1x.html` (which matches the class wildcard but no `GetName`
prefix, so `GetName` crashes) leaves the output file unchanged. -/
theorem c9_witness :
    (runGenerator GenMode.cpp ["classpp_1_1x.html"] "beta" "33" (some "old")).1 = some "old" :=
  c9_theorem GenMode.cpp ["classpp_1_1x.html"] "beta" "33" (some "old") PyError.nameError rfl

/-- Claim C10.  The tool tests lookups with Python falsiness: a requested
ID mapped to 0 in the header map, or whose value maps to an empty payload
in the pack, raises just like an absent entry, both in the
`Localizable.strings` loop and in the Jinja2 adapter (which returns the
very same exception as for an absent ID); and every line actually emitted
comes from an ID with a nonzero value and a nonempty payload. -/
theorem c10_theorem (idMap : String → Option Nat) (pack : Nat → Option String)
    (ids : List String) (name : String) :
    (name ∈ ids → idMap name = some 0 →
      ∃ ex, (writeLocalizableStrings idMap pack ids).2 = some ex) ∧
    (∀ v, name ∈ ids → idMap name = some v → v ≠ 0 → pack v = some "" →
      ∃ ex, (writeLocalizableStrings idMap pack ids).2 = some ex) ∧
    (idMap name = some 0 →
      adapterGetattr idMap pack name =
        Except.error (LocalizeException.adapterMissingId name)) ∧
    (∀ v, idMap name = some v → v ≠ 0 → pack v = some "" →
      adapterGetattr idMap pack name =
        Except.error (LocalizeException.adapterMissingString name v)) ∧
    (∀ line ∈ (writeLocalizableStrings idMap pack ids).1,
      ∃ idStr v data, idStr ∈ ids ∧ idMap idStr = some v ∧ v ≠ 0 ∧
        pack v = some data ∧ data ≠ "" ∧ line = mkStringsLine idStr data) := by
  refine ⟨?_, ?_, ?_, ?_, ?_⟩
  · intro hmem h0
    rcases hr : (writeLocalizableStrings idMap pack ids).2 with _ | ex
    · exfalso
      rcases writeLocalizable_ok idMap pack ids hr name hmem with ⟨v, data, hv, hvz, _, _⟩
      rw [h0] at hv
      cases hv
      exact hvz rfl
    · exact ⟨ex, rfl⟩
  · intro v hmem hv hvz hp
    rcases hr : (writeLocalizableStrings idMap pack ids).2 with _ | ex
    · exfalso
      rcases writeLocalizable_ok idMap pack ids hr name hmem with ⟨v2, data, hv2, _, hp2, hd2⟩
      rw [hv] at hv2
      cases hv2
      rw [hp] at hp2
      cases hp2
      exact hd2 rfl
    · exact ⟨ex, rfl⟩
  · intro h0
    simp only [adapterGetattr, h0, if_pos]
  · intro v hv hvz hp
    simp only [adapterGetattr, hv, hp, if_neg hvz, if_pos]
  · exact writeLocalizable_lines idMap pack ids

/-- Claim C10, witness: a zero-valued ID raises in the strings loop and the
adapter returns the missing-id exception for it, and an empty payload makes
the adapter return the missing-string exception. -/
theorem c10_witness :
    (∃ ex, (writeLocalizableStrings (fun s => if s = "IDS_Z" then some 0 else none)
        (fun _ => some "x") ["IDS_Z"]).2 = some ex) ∧
      adapterGetattr (fun s => if s = "IDS_Z" then some 0 else none) (fun _ => some "x")
          "IDS_Z" =
        Except.error (LocalizeException.adapterMissingId "IDS_Z") ∧
      adapterGetattr (fun s => if s = "IDS_E" then some 7 else none) (fun _ => some "")
          "IDS_E" =
        Except.error (LocalizeException.adapterMissingString "IDS_E" 7) := by
  have h1 := c10_theorem (fun s => if s = "IDS_Z" then some 0 else none)
    (fun _ => some "x") ["IDS_Z"] "IDS_Z"
  have h2 := c10_theorem (fun s => if s = "IDS_E" then some 7 else none)
    (fun _ => some "") ["IDS_E"] "IDS_E"
  exact ⟨h1.1 (by decide) (by decide), h1.2.2.1 (by decide),
    h2.2.2.2.1 7 (by decide) (by decide) rfl⟩
